import Mathlib

/-!
Shallow embedding of the zenmonitor monitoring engine
(internal/config/loader.go, internal/monitor engine, internal/notifier)
and proofs about its check execution, transition detection and scheduling.
Durations are modelled as `Int` nanoseconds, matching Go's `time.Duration`.
-/

namespace ZenMonitor

/-! ## Data model (internal/config/loader.go) -/

structure GlobalConfig where
  checkInterval : String
  historyDays : Int
deriving Repr, DecidableEq

structure NotificationConfig where
  type : String
  token : String
  chatID : String
  webhookURL : String
deriving Repr, DecidableEq

structure MonitorConfig where
  name : String
  type : String
  url : String
  host : String
  port : Int
  method : String
  expectStatus : Int
  interval : String
deriving Repr, DecidableEq

structure Config where
  global : GlobalConfig
  notifications : List NotificationConfig
  monitors : List MonitorConfig
deriving Repr, DecidableEq

/-- The per-monitor defaulting loop of LoadConfig: infer the type when unset
(url gives http, host+port gives tcp, host alone gives icmp), default the
method to GET and the expected status to 200. -/
def applyMonitorDefaults (m : MonitorConfig) : MonitorConfig :=
  let m1 :=
    if m.type = "" then
      if m.url ≠ "" then { m with type := "http" }
      else if m.host ≠ "" ∧ m.port ≠ 0 then { m with type := "tcp" }
      else if m.host ≠ "" then { m with type := "icmp" }
      else m
    else m
  let m2 := if m1.method = "" then { m1 with method := "GET" } else m1
  if m2.expectStatus = 0 then { m2 with expectStatus := 200 } else m2

/-- The global defaulting of LoadConfig: empty check interval becomes "60s",
zero history days becomes 90; every monitor gets applyMonitorDefaults. -/
def applyConfigDefaults (cfg : Config) : Config :=
  let g1 :=
    if cfg.global.checkInterval = "" then { cfg.global with checkInterval := "60s" }
    else cfg.global
  let g2 := if g1.historyDays = 0 then { g1 with historyDays := 90 } else g1
  { cfg with global := g2, monitors := cfg.monitors.map applyMonitorDefaults }

/-! ## Model of Go stdlib time.ParseDuration (src/time/format.go)

The repository's ParseDuration wraps time.ParseDuration; we model the
stdlib parser faithfully over `List Char`.  The only inexactness is the
fractional-digit contribution, which Go computes through float64 and we
compute by exact floor division; no claim depends on fraction rounding. -/

/-- Go's leadingInt: consume leading decimal digits into x, erroring (none)
on overflow past 2^63. -/
def leadingInt (x : Nat) : List Char → Option (Nat × List Char)
  | [] => some (x, [])
  | c :: rest =>
    if c < '0' ∨ '9' < c then some (x, c :: rest)
    else if x > 2 ^ 63 / 10 then none
    else
      let x1 := x * 10 + (c.toNat - '0'.toNat)
      if x1 > 2 ^ 63 then none
      else leadingInt x1 rest

/-- Go's leadingFraction: consume fractional digits into x with a power-of-ten
scale, silently stopping accumulation on overflow. -/
def leadingFraction (x : Nat) (scale : Nat) (overflow : Bool) :
    List Char → Nat × Nat × List Char
  | [] => (x, scale, [])
  | c :: rest =>
    if c < '0' ∨ '9' < c then (x, scale, c :: rest)
    else if overflow then leadingFraction x scale overflow rest
    else if x > (2 ^ 63 - 1) / 10 then leadingFraction x scale true rest
    else
      let y := x * 10 + (c.toNat - '0'.toNat)
      if y > 2 ^ 63 then leadingFraction x scale true rest
      else leadingFraction y (scale * 10) overflow rest

/-- Go's unitMap: nanoseconds per duration unit. -/
def unitMap (u : List Char) : Option Nat :=
  if u = "ns".toList then some 1
  else if u = "us".toList then some 1000
  else if u = "µs".toList then some 1000
  else if u = "μs".toList then some 1000
  else if u = "ms".toList then some 1000000
  else if u = "s".toList then some 1000000000
  else if u = "m".toList then some 60000000000
  else if u = "h".toList then some 3600000000000
  else none

/-- Split off the unit: everything up to the next digit or period. -/
def takeUnit : List Char → List Char × List Char
  | [] => ([], [])
  | c :: rest =>
    if c = '.' ∨ ('0' ≤ c ∧ c ≤ '9') then ([], c :: rest)
    else
      let p := takeUnit rest
      (c :: p.1, p.2)

/-- The main loop of Go's ParseDuration: repeatedly consume a
[0-9]*(\.[0-9]*)? number followed by a unit, accumulating nanoseconds in d.
Fuel bounds the recursion; each iteration consumes at least one character,
so fuel = length + 1 never runs out on a parse that would succeed. -/
def parseDurationTerms : Nat → Nat → List Char → Option Nat
  | 0, _, _ => none
  | _ + 1, d, [] => some d
  | fuel + 1, d, c :: s0 =>
    if ¬(c = '.' ∨ ('0' ≤ c ∧ c ≤ '9')) then none
    else
      match leadingInt 0 (c :: s0) with
      | none => none
      | some (v, s1) =>
        let pre := s1.length ≠ (c :: s0).length
        let fr : Nat × Nat × List Char × Bool :=
          match s1 with
          | '.' :: rest =>
            let p := leadingFraction 0 1 false rest
            (p.1, p.2.1, p.2.2, p.2.2.length ≠ rest.length)
          | _ => (0, 1, s1, false)
        let f := fr.1
        let scale := fr.2.1
        let s2 := fr.2.2.1
        let post := fr.2.2.2
        if ¬pre ∧ ¬post then none
        else
          let up := takeUnit s2
          if up.1 = [] then none
          else
            match unitMap up.1 with
            | none => none
            | some unit =>
              if v > 2 ^ 63 / unit then none
              else
                let v1 := v * unit
                let v2 := if f > 0 then v1 + f * unit / scale else v1
                if v2 > 2 ^ 63 then none
                else
                  let d1 := d + v2
                  if d1 > 2 ^ 63 then none
                  else parseDurationTerms fuel d1 up.2

/-- Model of Go's time.ParseDuration: optional sign, special case "0",
then the term loop; the magnitude may reach 2^63 only when negated.
Returns the duration in nanoseconds, or none on a parse error. -/
def goParseDuration (str : String) : Option Int :=
  let s0 := str.toList
  let sgn : Bool × List Char :=
    match s0 with
    | '-' :: rest => (true, rest)
    | '+' :: rest => (false, rest)
    | s => (false, s)
  let neg := sgn.1
  let s := sgn.2
  if s = ['0'] then some 0
  else if s = [] then none
  else
    match parseDurationTerms (s.length + 1) 0 s with
    | none => none
    | some d =>
      if neg then some (-(d : Int))
      else if d > 2 ^ 63 - 1 then none
      else some (d : Int)

/-- config.ParseDuration: parse the string, falling back to 60 seconds
(60000000000 ns) when time.ParseDuration reports an error. -/
def ParseDuration (d : String) : Int :=
  match goParseDuration d with
  | none => 60 * 1000000000
  | some dur => dur

example : goParseDuration "0s" = some 0 := by decide
example : goParseDuration "-5s" = some (-5000000000) := by decide
example : goParseDuration "60s" = some 60000000000 := by decide
example : goParseDuration "abc" = none := by decide
example : goParseDuration "" = none := by decide
example : ParseDuration "1m" = 60000000000 := by decide
example : goParseDuration "1.5s" = some 1500000000 := by decide

/-! ## Probe executors (internal/monitor check implementations)

Network effects are oracles: the outcome of the one HTTP GET that
checkHTTP performs, and of the one TCP dial that checkTCP performs. -/

/-- Outcome of client.Get in checkHTTP: a connection error carrying the Go
error text, or a response carrying a status code. -/
inductive HTTPOutcome where
  | connError (msg : String)
  | response (statusCode : Int)
deriving Repr, DecidableEq

/-- Outcome of net.DialTimeout in checkTCP. -/
inductive TCPOutcome where
  | dialError (msg : String)
  | connected
deriving Repr, DecidableEq

structure Network where
  http : HTTPOutcome
  tcp : TCPOutcome
deriving Repr, DecidableEq

/-- The request issued by checkHTTP: client.Get(m.URL), so method GET on
the target's URL, independent of m.method. -/
def checkHTTPRequest (m : MonitorConfig) : String × String :=
  ("GET", m.url)

/-- checkHTTP: GET the URL; connection error fails with the error text; a
response succeeds iff its status code equals m.expectStatus, otherwise the
failure detail names both codes. -/
def checkHTTP (m : MonitorConfig) (net : Network) : Bool × Option String :=
  match net.http with
  | .connError msg => (false, some msg)
  | .response code =>
    if code ≠ m.expectStatus then
      (false, some ("status code " ++ toString code ++ ", expected " ++
        toString m.expectStatus))
    else (true, none)

/-- The dial address built by checkTCP: fmt.Sprintf of host and port. -/
def tcpTarget (m : MonitorConfig) : String :=
  m.host ++ ":" ++ toString m.port

/-- checkTCP: success iff the dial connects; a dial error fails with the
error text. -/
def checkTCP (_m : MonitorConfig) (net : Network) : Bool × Option String :=
  match net.tcp with
  | .dialError msg => (false, some msg)
  | .connected => (true, none)

/-- The fixed error string checkICMP returns. -/
def icmpErrorMessage : String :=
  "ICMP not yet implemented (requires decision on root vs shell)"

/-- checkICMP: always fails with the fixed unimplemented-ICMP error,
touching no network. -/
def checkICMP (_m : MonitorConfig) : Bool × Option String :=
  (false, some icmpErrorMessage)

/-- The type switch of performCheck: dispatch on m.type, with the default
branch running HTTP when a URL is present and otherwise failing with
"unknown monitor type". -/
def runCheck (m : MonitorConfig) (net : Network) : Bool × Option String :=
  if m.type = "http" ∨ m.type = "https" then checkHTTP m net
  else if m.type = "tcp" then checkTCP m net
  else if m.type = "icmp" then checkICMP m
  else if m.url ≠ "" then checkHTTP m net
  else (false, some "unknown monitor type")

/-! ## Engine state, check results and the per-cycle side effects -/

structure CheckResult where
  monitorName : String
  timestamp : Int
  status : Bool
  latency : Int
  error : String
deriving Repr, DecidableEq

/-- The arguments of one Notifier.Notify invocation. -/
structure NotifyCall where
  monitorName : String
  isUp : Bool
  wasUp : Bool
deriving Repr, DecidableEq

/-- One observable side effect of a check cycle, in program order. -/
inductive Event where
  | logCheck (result : CheckResult)
  | notify (call : NotifyCall)
deriving Repr, DecidableEq

/-- The Engine's collaborators and state: whether Store and Notifier are
wired (non-nil), and the lastState map from monitor name to last observed
status (absent until the first check completes). -/
structure Engine where
  hasStore : Bool
  hasNotifier : Bool
  lastState : String → Option Bool

/-- NewEngine: collaborators as given, lastState the empty map. -/
def NewEngine (hasStore hasNotifier : Bool) : Engine :=
  ⟨hasStore, hasNotifier, fun _ => none⟩

/-- The environment of one performCheck call: the network oracle, the two
clock readings, and the outcomes of the calls whose results the code
discards (Store.LogCheck, and each spawned Sender.Send). -/
structure World where
  net : Network
  start : Int
  latency : Int
  storeFails : Bool
  sendFails : List Bool
deriving Repr, DecidableEq

/-- The errMsg computation of performCheck: empty string when err is nil. -/
def errMsgOf : Option String → String
  | none => ""
  | some s => s

/-- performCheck: run the type-dispatched check, build the CheckResult,
log it to Store when wired (its error discarded), update lastState under
the lock, and invoke Notifier when a prior state exists and differs.
Returns the result, the updated engine, and the side effects in order. -/
def performCheck (e : Engine) (m : MonitorConfig) (w : World) :
    CheckResult × Engine × List Event :=
  let res := runCheck m w.net
  let result : CheckResult :=
    { monitorName := m.name, timestamp := w.start, status := res.1,
      latency := w.latency, error := errMsgOf res.2 }
  let storeEvents := if e.hasStore then [Event.logCheck result] else []
  let notifyEvents :=
    match e.lastState m.name with
    | some wasUp =>
      if wasUp ≠ res.1 ∧ e.hasNotifier = true then
        [Event.notify ⟨m.name, res.1, wasUp⟩]
      else []
    | none => []
  (result,
   { e with lastState := fun n => if n = m.name then some res.1 else e.lastState n },
   storeEvents ++ notifyEvents)

/-! ## Notifier service (internal/notifier/notifier.go) -/

/-- The message Service.Notify formats for a transition, with the RFC1123
clock reading as an oracle string. -/
def notifyMessage (monitorName : String) (isUp : Bool) (now : String) : String :=
  let status := if isUp then "UP" else "DOWN"
  let emoji := if isUp then "🟢" else "🔴"
  emoji ++ " Monitor *" ++ monitorName ++ "* is " ++ status ++ " at " ++ now

/-- Service.Notify: format the message once and spawn one fire-and-forget
send per sender; each pair records the message handed to the sender and
the send outcome the goroutine discards. -/
def serviceNotify (senders : List String) (sendOutcome : String → Option String)
    (monitorName : String) (isUp : Bool) (now : String) :
    List (String × Option String) :=
  senders.map (fun snd => (notifyMessage monitorName isUp now, sendOutcome snd))

/-! ## The monitor loop (runMonitor) -/

/-- The effective interval of runMonitor: parse the global check interval,
overridden by the parsed per-monitor interval when that string is
non-empty. -/
def effectiveInterval (cfg : Config) (m : MonitorConfig) : Int :=
  let interval := ParseDuration cfg.global.checkInterval
  if m.interval ≠ "" then ParseDuration m.interval else interval

/-- Result of time.NewTicker: Go panics on a non-positive interval. -/
inductive TickerInit where
  | panicked
  | started (interval : Int)
deriving Repr, DecidableEq

def newTicker (d : Int) : TickerInit :=
  if d ≤ 0 then .panicked else .started d

/-- The setup of runMonitor: compute the effective interval and construct
the ticker; this precedes the initial check, so a non-positive interval
panics before any CheckResult is produced. -/
def runMonitorInit (cfg : Config) (m : MonitorConfig) : TickerInit :=
  newTicker (effectiveInterval cfg m)

/-- State of one runMonitor goroutine together with its stop channel and
ticker: whether Stop() has closed stopCh, whether ticker.C holds an
undelivered tick (its buffer has capacity one), and whether the goroutine
has returned. -/
structure LoopState where
  stopClosed : Bool
  tickPending : Bool
  returned : Bool
deriving Repr, DecidableEq

inductive LoopEvent where
  | check
  | exit
  | tick
  | stop
deriving Repr, DecidableEq

/-- One step of runMonitor's select loop and its environment.  Go's select
chooses among the READY cases with uniform pseudo-random selection and no
preference, so while the goroutine runs it may take whichever of the stop
case and the tick case is ready; the ticker keeps delivering while the
loop runs, and Stop() closes the channel at any time. -/
inductive LoopStep : LoopState → LoopEvent → LoopState → Prop where
  | selectStop (s : LoopState) : s.returned = false → s.stopClosed = true →
      LoopStep s .exit { s with returned := true }
  | selectTick (s : LoopState) : s.returned = false → s.tickPending = true →
      LoopStep s .check { s with tickPending := false }
  | tickerFires (s : LoopState) : s.returned = false → s.tickPending = false →
      LoopStep s .tick { s with tickPending := true }
  | stopCalled (s : LoopState) : s.stopClosed = false →
      LoopStep s .stop { s with stopClosed := true }

/-! ## Theorems -/

/-- Claim C1: processing a CheckResult invokes Notifier.Notify with the
target name, the new status and the prior recorded status iff a prior
status is recorded for the target and the new success value differs from
it; the first-ever CheckResult for a target never triggers a notification
whatever its success value; and after processing, the stored status equals
the new result's status. -/
theorem performCheck_transition_iff (e : Engine) (m : MonitorConfig) (w : World)
    (hn : e.hasNotifier = true) :
    (∀ c : NotifyCall,
        Event.notify c ∈ (performCheck e m w).2.2 ↔
          c.monitorName = m.name ∧ c.isUp = (performCheck e m w).1.status ∧
            e.lastState m.name = some c.wasUp ∧
            c.wasUp ≠ (performCheck e m w).1.status) ∧
    (e.lastState m.name = none →
      ∀ c : NotifyCall, Event.notify c ∉ (performCheck e m w).2.2) ∧
    (performCheck e m w).2.1.lastState m.name = some (performCheck e m w).1.status := by
  refine ⟨?_, ?_, by simp [performCheck]⟩
  · intro c
    cases h : e.lastState m.name with
    | none => simp [performCheck, h]
    | some wasUp =>
      by_cases hw : wasUp = (runCheck m w.net).1
      · simp only [performCheck, h, hw, hn]
        simp
        intro _ _ h3
        exact h3.symm
      · simp only [performCheck, h, hn]
        simp [hw]
        constructor
        · rintro rfl
          exact ⟨rfl, rfl, rfl, hw⟩
        · rintro ⟨h1, h2, h3, h4⟩
          cases c
          simp_all
  · intro h0 c
    simp [performCheck, h0]

/-- A lastState map recording every monitor as up. -/
def stateAllUp : String → Option Bool := fun _ => some true

/-- A concrete HTTP monitor, as the loader would produce it. -/
def sampleMonitor : MonitorConfig :=
  { name := "svc", type := "http", url := "http://x/health", host := "",
    port := 0, method := "GET", expectStatus := 200, interval := "" }

/-- A concrete world in which the endpoint answers 503. -/
def sampleWorld : World :=
  { net := { http := .response 503, tcp := .connected }, start := 0,
    latency := 5, storeFails := false, sendFails := [] }

theorem performCheck_transition_iff_witness :
    Event.notify ⟨"svc", false, true⟩ ∈
      (performCheck ⟨true, true, stateAllUp⟩ sampleMonitor sampleWorld).2.2 :=
  ((performCheck_transition_iff ⟨true, true, stateAllUp⟩ sampleMonitor sampleWorld
      rfl).1 ⟨"svc", false, true⟩).mpr (by decide)

/-- Claim C2: the HTTP probe succeeds iff a response arrived whose status
code equals the target's expected status, an unset expected status being
defaulted to 200 by the loader; a status mismatch fails with detail
"status code X, expected Y" naming the actual and expected codes, and a
connection error fails with that error. -/
theorem checkHTTP_spec :
    (∀ m : MonitorConfig, ∀ net : Network,
        (checkHTTP m net).1 = true ↔ net.http = HTTPOutcome.response m.expectStatus) ∧
    (∀ m : MonitorConfig, m.expectStatus = 0 →
        (applyMonitorDefaults m).expectStatus = 200) ∧
    (∀ m : MonitorConfig, ∀ net : Network, ∀ code : Int,
        net.http = HTTPOutcome.response code → code ≠ m.expectStatus →
        checkHTTP m net = (false, some ("status code " ++ toString code ++
          ", expected " ++ toString m.expectStatus))) ∧
    (∀ m : MonitorConfig, ∀ net : Network, ∀ msg : String,
        net.http = HTTPOutcome.connError msg →
        checkHTTP m net = (false, some msg)) := by
  refine ⟨?_, ?_, ?_, ?_⟩
  · intro m net
    cases h : net.http with
    | connError msg => simp [checkHTTP, h]
    | response code =>
      by_cases hc : code = m.expectStatus <;> simp [checkHTTP, h, hc]
  · intro m h
    simp only [applyMonitorDefaults]
    split_ifs <;> simp_all
  · intro m net code h hc
    simp [checkHTTP, h, hc]
  · intro m net msg h
    simp [checkHTTP, h]

theorem checkHTTP_spec_witness :
    checkHTTP sampleMonitor { http := .response 503, tcp := .connected } =
      (false, some "status code 503, expected 200") := by
  have h := checkHTTP_spec.2.2.1 sampleMonitor
    { http := .response 503, tcp := .connected } 503 rfl (by decide)
  rw [h]
  rfl

/-- Claim C3: the check loop's effective interval is the parsed per-target
override when the override string is non-empty, otherwise the parsed global
default; and for every interval string time.ParseDuration rejects,
ParseDuration silently returns the fixed 60-second default instead of
aborting. -/
theorem effectiveInterval_spec :
    (∀ cfg : Config, ∀ m : MonitorConfig, m.interval ≠ "" →
        effectiveInterval cfg m = ParseDuration m.interval) ∧
    (∀ cfg : Config, ∀ m : MonitorConfig, m.interval = "" →
        effectiveInterval cfg m = ParseDuration cfg.global.checkInterval) ∧
    (∀ s : String, goParseDuration s = none →
        ParseDuration s = 60 * 1000000000) := by
  refine ⟨?_, ?_, ?_⟩
  · intro cfg m h
    simp [effectiveInterval, h]
  · intro cfg m h
    simp [effectiveInterval, h]
  · intro s h
    simp [ParseDuration, h]

theorem effectiveInterval_spec_witness :
    effectiveInterval
        { global := { checkInterval := "60s", historyDays := 90 },
          notifications := [], monitors := [] }
        { sampleMonitor with interval := "banana" } = 60 * 1000000000 := by
  have h1 := effectiveInterval_spec.1
    { global := { checkInterval := "60s", historyDays := 90 },
      notifications := [], monitors := [] }
    { sampleMonitor with interval := "banana" } (by decide)
  have h2 := effectiveInterval_spec.2.2 "banana" (by decide)
  rw [h1, h2]

/-- Claim C4: an icmp target's probe always fails: checkICMP returns
success=false together with the fixed "ICMP not yet implemented" error,
and the CheckResult of such a check carries that explicit marker whatever
the network does — never a success, never a generic network error. -/
theorem checkICMP_spec :
    (∀ m : MonitorConfig, checkICMP m = (false, some icmpErrorMessage)) ∧
    (∀ e : Engine, ∀ m : MonitorConfig, ∀ w : World, m.type = "icmp" →
        (performCheck e m w).1.status = false ∧
        (performCheck e m w).1.error = icmpErrorMessage) := by
  refine ⟨fun m => rfl, ?_⟩
  intro e m w h
  simp [performCheck, runCheck, h, checkICMP, errMsgOf]

theorem checkICMP_spec_witness :
    (performCheck ⟨true, true, stateAllUp⟩
        { sampleMonitor with type := "icmp", host := "8.8.8.8" } sampleWorld).1.status
      = false :=
  (checkICMP_spec.2 ⟨true, true, stateAllUp⟩
    { sampleMonitor with type := "icmp", host := "8.8.8.8" } sampleWorld rfl).1

/-- Claim C5: a target whose type is none of http, https, tcp, icmp at
check time runs the HTTP check when its URL is non-empty, and otherwise
yields a failed CheckResult with the explicit "unknown monitor type"
error — never a silent skip, never a success. -/
theorem runCheck_unknown_type (e : Engine) (m : MonitorConfig) (w : World)
    (h1 : m.type ≠ "http") (h2 : m.type ≠ "https") (h3 : m.type ≠ "tcp")
    (h4 : m.type ≠ "icmp") :
    (m.url ≠ "" → runCheck m w.net = checkHTTP m w.net) ∧
    (m.url = "" →
      (performCheck e m w).1.status = false ∧
      (performCheck e m w).1.error = "unknown monitor type") := by
  constructor
  · intro hu
    simp [runCheck, h1, h2, h3, h4, hu]
  · intro hu
    simp [performCheck, runCheck, h1, h2, h3, h4, hu, errMsgOf]

theorem runCheck_unknown_type_witness :
    (performCheck ⟨true, true, stateAllUp⟩
        { sampleMonitor with type := "gopher", url := "" } sampleWorld).1.error
      = "unknown monitor type" :=
  ((runCheck_unknown_type ⟨true, true, stateAllUp⟩
      { sampleMonitor with type := "gopher", url := "" } sampleWorld
      (by decide) (by decide) (by decide) (by decide)).2 rfl).2

/-- The status-mismatch detail of checkHTTP is never the empty string. -/
theorem statusMessage_ne_empty (a b : String) :
    "status code " ++ a ++ ", expected " ++ b ≠ "" := by
  intro h
  have h2 := congrArg String.data h
  simp at h2

/-- Every branch of runCheck yields (true, none) or (false, some msg), and
a failing message is an HTTP connection error text, a TCP dial error text,
or a non-empty constant. -/
theorem runCheck_cases (m : MonitorConfig) (net : Network) :
    runCheck m net = (true, none) ∨
      ∃ msg, runCheck m net = (false, some msg) ∧
        (net.http = HTTPOutcome.connError msg ∨
         net.tcp = TCPOutcome.dialError msg ∨ msg ≠ "") := by
  have hhttp : checkHTTP m net = (true, none) ∨
      ∃ msg, checkHTTP m net = (false, some msg) ∧
        (net.http = HTTPOutcome.connError msg ∨
         net.tcp = TCPOutcome.dialError msg ∨ msg ≠ "") := by
    cases h : net.http with
    | connError msg => exact Or.inr ⟨msg, by simp [checkHTTP, h], Or.inl rfl⟩
    | response code =>
      by_cases hc : code = m.expectStatus
      · exact Or.inl (by simp [checkHTTP, h, hc])
      · exact Or.inr ⟨"status code " ++ toString code ++ ", expected " ++
          toString m.expectStatus, by simp [checkHTTP, h, hc],
          Or.inr (Or.inr (statusMessage_ne_empty _ _))⟩
  unfold runCheck
  split_ifs
  · exact hhttp
  · cases h : net.tcp with
    | dialError msg =>
      exact Or.inr ⟨msg, by simp [checkTCP, h], Or.inr (Or.inl rfl)⟩
    | connected => exact Or.inl (by simp [checkTCP, h])
  · exact Or.inr ⟨icmpErrorMessage, rfl, Or.inr (Or.inr (by decide))⟩
  · exact hhttp
  · exact Or.inr ⟨"unknown monitor type", rfl, Or.inr (Or.inr (by decide))⟩

/-- Claim C6: every executor call returns exactly one of (success=true, no
error) or (success=false, error detail); and, network error texts being
non-empty, the CheckResult a check cycle produces has a non-empty error
description iff its success flag is false. -/
theorem checkResult_error_iff_down (e : Engine) (m : MonitorConfig) (w : World)
    (hhttp : ∀ msg, w.net.http = HTTPOutcome.connError msg → msg ≠ "")
    (htcp : ∀ msg, w.net.tcp = TCPOutcome.dialError msg → msg ≠ "") :
    ((runCheck m w.net).1 = true ∧ (runCheck m w.net).2 = none ∨
      (runCheck m w.net).1 = false ∧ ∃ msg, (runCheck m w.net).2 = some msg) ∧
    ((performCheck e m w).1.error ≠ "" ↔ (performCheck e m w).1.status = false) := by
  rcases runCheck_cases m w.net with h | ⟨msg, h, hmsg⟩
  · constructor
    · exact Or.inl (by simp [h])
    · simp [performCheck, h, errMsgOf]
  · have hne : msg ≠ "" := by
      rcases hmsg with h1 | h1 | h1
      · exact hhttp msg h1
      · exact htcp msg h1
      · exact h1
    constructor
    · exact Or.inr ⟨by simp [h], msg, by simp [h]⟩
    · simp [performCheck, h, errMsgOf, hne]

theorem checkResult_error_iff_down_witness :
    (performCheck ⟨true, true, stateAllUp⟩ sampleMonitor sampleWorld).1.error ≠ "" := by
  have h := (checkResult_error_iff_down ⟨true, true, stateAllUp⟩ sampleMonitor
    sampleWorld (by intro msg hm; cases hm) (by intro msg hm; cases hm)).2
  exact h.mpr (by decide)

/-- Claim C7: in each check cycle the CheckResult is logged to Store first;
a Notify invocation comes only after that log and only when a recorded
prior status differs from the new one; the cycle's outputs are identical
whatever the Store outcome and whatever the send outcomes, so a storage
failure never aborts the cycle or loses the state update and a send
failure never fails the loop; the stored status is updated regardless; and
Service.Notify hands every sender the same message whatever each
fire-and-forget send returns. -/
theorem performCheck_effect_order (e : Engine) (m : MonitorConfig) (w : World)
    (hs : e.hasStore = true) :
    (performCheck e m w).2.2.head? = some (Event.logCheck (performCheck e m w).1) ∧
    (∀ c : NotifyCall, Event.notify c ∈ (performCheck e m w).2.2 →
        (performCheck e m w).2.2 =
          [Event.logCheck (performCheck e m w).1, Event.notify c] ∧
        e.lastState m.name = some c.wasUp ∧
        c.wasUp ≠ (performCheck e m w).1.status) ∧
    (∀ b : Bool, ∀ bs : List Bool,
        performCheck e m { w with storeFails := b, sendFails := bs } =
          performCheck e m w) ∧
    (performCheck e m w).2.1.lastState m.name = some (performCheck e m w).1.status ∧
    (∀ senders : List String, ∀ o1 o2 : String → Option String,
      ∀ n : String, ∀ u : Bool, ∀ now : String,
        (serviceNotify senders o1 n u now).map Prod.fst =
          (serviceNotify senders o2 n u now).map Prod.fst) := by
  refine ⟨?_, ?_, fun b bs => rfl, by simp [performCheck], ?_⟩
  · simp [performCheck, hs]
  · intro c hc
    cases h : e.lastState m.name with
    | none => simp [performCheck, h] at hc
    | some wasUp =>
      by_cases hw : wasUp = (runCheck m w.net).1
      · simp [performCheck, h, hw] at hc
      · by_cases hn : e.hasNotifier = true
        · have hceq : c = ⟨m.name, (runCheck m w.net).1, wasUp⟩ := by
            simp [performCheck, h, hw, hn] at hc
            exact hc
          refine ⟨?_, ?_, ?_⟩
          · simp [performCheck, h, hw, hn, hs, hceq]
          · rw [hceq]
          · rw [hceq]
            exact hw
        · simp [performCheck, h, hn] at hc
  · intro senders o1 o2 n u now
    simp [serviceNotify]

theorem performCheck_effect_order_witness :
    (performCheck ⟨true, true, stateAllUp⟩ sampleMonitor sampleWorld).2.2.head? =
      some (Event.logCheck
        (performCheck ⟨true, true, stateAllUp⟩ sampleMonitor sampleWorld).1) :=
  (performCheck_effect_order ⟨true, true, stateAllUp⟩ sampleMonitor sampleWorld rfl).1

/-- Claim C8 counterexample: with Stop() already performed (stopCh closed)
and a tick pending in ticker.C, the running select loop may take the tick
case — Go's select draws uniformly among ready cases, with no preference
for the stop case — and run one more check, so a CheckResult can still be
produced after Stop and the loop need not terminate at its next wait
point. -/
theorem loopStep_check_after_stop :
    LoopStep ⟨true, true, false⟩ LoopEvent.check ⟨true, false, false⟩ :=
  LoopStep.selectTick ⟨true, true, false⟩ rfl rfl

/-- Claim C8 amended: once Stop() has closed stopCh, the stop branch is
enabled at every wait point of a still-running loop and taking it
terminates the loop; a loop that has returned takes no further step other
than the external stop event, so it produces no further CheckResults; a
pending probe stays runnable as one atomic step that Stop never
interrupts — but because select has no preference among ready cases, a
pending tick may still be chosen after Stop, so further CheckResults
before the loop observes the stop signal are possible. -/
theorem loopStep_stop_spec :
    (∀ s : LoopState, s.returned = false → s.stopClosed = true →
        LoopStep s LoopEvent.exit { s with returned := true }) ∧
    (∀ s s' : LoopState, ∀ ev : LoopEvent, LoopStep s ev s' →
        s.returned = true → ev = LoopEvent.stop) ∧
    (∀ s : LoopState, s.returned = false → s.tickPending = true →
        LoopStep s LoopEvent.check { s with tickPending := false }) := by
  refine ⟨fun s h1 h2 => LoopStep.selectStop s h1 h2, ?_,
    fun s h1 h2 => LoopStep.selectTick s h1 h2⟩
  intro s s' ev hstep hret
  cases hstep with
  | selectStop h1 h2 => simp [h1] at hret
  | selectTick h1 h2 => simp [h1] at hret
  | tickerFires h1 h2 => simp [h1] at hret
  | stopCalled h1 => rfl

theorem loopStep_stop_spec_witness :
    LoopStep ⟨true, false, false⟩ LoopEvent.exit ⟨true, false, true⟩ :=
  loopStep_stop_spec.1 ⟨true, false, false⟩ rfl rfl

/-- Claim C9: the HTTP probe always issues a GET of the target URL
(client.Get); the executor never consults the Method field — which the
loader defaults to "GET" when unset — so a target configured with any
method, POST included, probes identically to the same target with method
GET. -/
theorem checkHTTP_ignores_method :
    (∀ m : MonitorConfig, (checkHTTPRequest m).1 = "GET") ∧
    (∀ m : MonitorConfig, ∀ x : String, ∀ net : Network,
        checkHTTP { m with method := x } net = checkHTTP m net ∧
        checkHTTPRequest { m with method := x } = checkHTTPRequest m) ∧
    (∀ m : MonitorConfig, m.method = "" →
        (applyMonitorDefaults m).method = "GET") := by
  refine ⟨fun m => rfl, fun m x net => ⟨rfl, rfl⟩, ?_⟩
  intro m h
  simp only [applyMonitorDefaults]
  split_ifs <;> simp_all

theorem checkHTTP_ignores_method_witness :
    checkHTTP { sampleMonitor with method := "POST" }
        { http := .response 503, tcp := .connected } =
      checkHTTP sampleMonitor { http := .response 503, tcp := .connected } :=
  (checkHTTP_ignores_method.2.1 sampleMonitor "POST"
    { http := .response 503, tcp := .connected }).1

/-- Claim C10: ParseDuration returns every duration time.ParseDuration
accepts unchanged — "0s" parses to 0 and "-5s" to -5 seconds — the
60-second fallback applying only to parse failures, so a valid
non-positive interval reaches time.NewTicker, whose panic on a
non-positive interval is reachable, for instance with a per-target
override of "0s". -/
theorem ParseDuration_passthrough :
    (∀ s : String, ∀ v : Int, goParseDuration s = some v → ParseDuration s = v) ∧
    goParseDuration "0s" = some 0 ∧
    goParseDuration "-5s" = some (-5000000000) ∧
    (∀ cfg : Config, ∀ m : MonitorConfig, effectiveInterval cfg m ≤ 0 →
        runMonitorInit cfg m = TickerInit.panicked) ∧
    (∀ cfg : Config, ∀ m : MonitorConfig, m.interval = "0s" →
        runMonitorInit cfg m = TickerInit.panicked) := by
  have hpass : ∀ s : String, ∀ v : Int, goParseDuration s = some v →
      ParseDuration s = v := by
    intro s v h
    simp [ParseDuration, h]
  have hpanic : ∀ cfg : Config, ∀ m : MonitorConfig, effectiveInterval cfg m ≤ 0 →
      runMonitorInit cfg m = TickerInit.panicked := by
    intro cfg m h
    simp [runMonitorInit, newTicker, h]
  refine ⟨hpass, by decide, by decide, hpanic, ?_⟩
  intro cfg m h
  apply hpanic
  have h0 : ParseDuration "0s" = 0 := by decide
  simp [effectiveInterval, h, h0]

theorem ParseDuration_passthrough_witness :
    runMonitorInit
        { global := { checkInterval := "60s", historyDays := 90 },
          notifications := [], monitors := [] }
        { sampleMonitor with interval := "0s" } = TickerInit.panicked :=
  ParseDuration_passthrough.2.2.2.2
    { global := { checkInterval := "60s", historyDays := 90 },
      notifications := [], monitors := [] }
    { sampleMonitor with interval := "0s" } rfl

end ZenMonitor
